import Mathlib

/-!
# Verification of the deepl-wiki repository indexing pipeline

Shallow embedding of the core of the `deepl-wiki` indexing pipeline
(`deepl-wiki-backend/deepl-wiki-agents/agents/`):

* `ChromaManager._split_memo` (chunking engine, `shared/chroma_manager.py`),
* `GitignoreParser` (ignore engine, `index_repo_agent/gitignore_parser.py`),
* `IndexRepoAgent._should_analyze_file` and the analysis-eligibility filter
  (`index_repo_agent/main.py`),
* the structure planner tiers (`index_repo_agent/intelligent_structure_analyzer.py`
  and `index_repo_agent/documentation_generator.py`),
* `ASTAnalyzer._calculate_function_complexity` (`index_repo_agent/ast_analyzer.py`),
* the LangGraph orchestration state machine of `IndexRepoAgent`
  (`index_repo_agent/main.py`).

Python strings are modelled as `List Char`; machine integers are `Nat`/`Int`.
External collaborators (LLM calls, the vector store, git metadata, the
filesystem) are out of scope per the spec and enter as parameters of an
environment record; all core logic is translated statement by statement.
-/

/-! ## Python string primitives on `List Char` -/

/-- Python slice `s[a:b]` for `0 ≤ a ≤ b` (out-of-range ends clamp). -/
def pySlice (l : List Char) (a b : Nat) : List Char :=
  (l.drop a).take (b - a)

/-- Python ASCII whitespace as used by `str.strip()` (the repository only ever
strips ASCII text; the Unicode cases of `str.strip` never arise). -/
def pyIsSpace (c : Char) : Bool :=
  c == ' ' || c == '\t' || c == '\n' || c == '\x0d' || c == '\x0b' || c == '\x0c'

/-- Python `str.strip()`: drop leading and trailing whitespace. -/
def pyStrip (l : List Char) : List Char :=
  ((l.dropWhile pyIsSpace).reverse.dropWhile pyIsSpace).reverse

/-- Python `str.rfind(c)`: index of the last occurrence of `c`, `-1` if absent. -/
def pyRfind : List Char → Char → Int
  | [], _ => -1
  | x :: xs, c =>
    let r := pyRfind xs c
    if r == -1 then (if x == c then 0 else -1) else r + 1

/-- `pre` is a prefix of `l` (Python `s.startswith(pre)`). -/
def listStartsWith : List Char → List Char → Bool
  | [], _ => true
  | _ :: _, [] => false
  | p :: ps, c :: cs => p == c && listStartsWith ps cs

/-- `suf` is a suffix of `l` (Python `s.endswith(suf)`). -/
def listEndsWith (l suf : List Char) : Bool :=
  listStartsWith suf.reverse l.reverse

/-- `needle` occurs as a contiguous substring of `hay` (Python `needle in hay`). -/
def listContains : List Char → List Char → Bool
  | hay, needle =>
    listStartsWith needle hay ||
      match hay with
      | [] => false
      | _ :: t => listContains t needle

/-- Python `path.split('/')`: split at every `'/'`, keeping empty pieces. -/
def splitSlash : List Char → List (List Char)
  | [] => [[]]
  | '/' :: rest => [] :: splitSlash rest
  | c :: rest =>
    match splitSlash rest with
    | g :: gs => (c :: g) :: gs
    | [] => [[c]]

/-- Python `'/'.join(parts)`. -/
def joinSlash (parts : List (List Char)) : List Char :=
  List.intercalate ['/'] parts

/-! ## ChromaManager._split_memo (chunking engine)

`shared/chroma_manager.py`, lines 171–198.  The `while` loop is rendered with
a fuel argument; one unit of fuel is one loop iteration, and `memo.length`
units suffice because every iteration advances `start` by at least one
whenever `2 * overlap ≤ chunk_size` (the configuration used by the code:
defaults `chunk_size = 1000`, `overlap = 200`).  The source strips each chunk
as it is appended and filters at the end; since the loop control never reads
the appended value, the strip/filter pair is applied to the loop's raw
windows after the fact, which is the same function. -/

/-- The loop body up to the appended chunk: cut `chunk = memo[start:end]`
with `end = start + chunk_size`, then apply the sentence-boundary shrink.
Returns the chunk and the final `end`.  NOTE (faithful to the source): the
shrink condition compares the window-RELATIVE index `break_point` (from
`chunk.rfind`) with the ABSOLUTE threshold `start + chunk_size // 2`. -/
def splitWindowAt (memo : List Char) (chunk_size start : Nat) :
    List Char × Nat :=
  let e0 := start + chunk_size
  let chunk0 := pySlice memo start e0
  if e0 < memo.length then
    let last_period := pyRfind chunk0 '.'
    let last_newline := pyRfind chunk0 '\n'
    let break_point := max last_period last_newline
    if break_point > (start : Int) + (chunk_size / 2 : Nat) then
      (pySlice memo start (start + break_point.toNat + 1),
       start + break_point.toNat + 1)
    else (chunk0, e0)
  else (chunk0, e0)

def splitMemoLoop (memo : List Char) (chunk_size overlap : Nat) :
    Nat → Nat → List (List Char)
  | 0, _ => []
  | fuel + 1, start =>
    if start < memo.length then
      let ce := splitWindowAt memo chunk_size start
      -- start = end - overlap; if start >= len(memo): break
      if memo.length ≤ ce.2 - overlap then [ce.1]
      else ce.1 :: splitMemoLoop memo chunk_size overlap fuel (ce.2 - overlap)
    else []

/-- `ChromaManager._split_memo(memo, chunk_size, overlap)`. -/
def split_memo (memo : List Char) (chunk_size overlap : Nat) : List (List Char) :=
  if memo.length ≤ chunk_size then [memo]
  else
    ((splitMemoLoop memo chunk_size overlap memo.length 0).map pyStrip).filter
      (fun chunk => !(pyStrip chunk).isEmpty)

/-- The raw windows the loop cuts, before per-chunk stripping and before the
whitespace-only filter (the short input is its own single window, as in the
source's early return). -/
def splitMemoWindows (memo : List Char) (chunk_size overlap : Nat) :
    List (List Char) :=
  if memo.length ≤ chunk_size then [memo]
  else splitMemoLoop memo chunk_size overlap memo.length 0

/-- Reassembly described by the spec: keep the first chunk whole and remove
the configured overlap from the front of every successor chunk. -/
def reconstructChunks (overlap : Nat) : List (List Char) → List Char
  | [] => []
  | c :: rest => c ++ (rest.map (fun x => x.drop overlap)).flatten

/-! ## GitignoreParser (ignore engine)

`index_repo_agent/gitignore_parser.py`.  A parsed pattern keeps the fields of
the dict built by `_normalize_pattern`; paths are the `'/'`-normalised path
relative to the repository root (the function's first step), plus the result
of the `file_path.is_file()` filesystem probe. -/

structure GitignorePattern where
  pattern : List Char
  original : List Char
  is_negation : Bool
  is_directory : Bool
  is_absolute : Bool
deriving Repr, DecidableEq

/-- `GitignoreParser._normalize_pattern`. -/
def normalize_pattern (line : List Char) : GitignorePattern :=
  let is_negation := listStartsWith ['!'] line
  let p1 := if is_negation then line.drop 1 else line
  let is_directory := listEndsWith p1 ['/']
  let p2 := if is_directory then p1.take (p1.length - 1) else p1
  let is_absolute := listStartsWith ['/'] p2
  let p3 := if is_absolute then p2.drop 1 else p2
  { pattern := p3, original := line, is_negation := is_negation,
    is_directory := is_directory, is_absolute := is_absolute }

/-- `fnmatch` glob matching as used by the parser (`*`, `?`, `[...]` classes
with `!` negation and ranges; an unterminated `[` is a literal).  Rendered
with fuel; `pat.length + name.length + 1` bounds the recursion depth. -/
def scanClassClose : List Char → Option (List Char × List Char)
  | [] => none
  | ']' :: r => some ([], r)
  | c :: r =>
    (scanClassClose r).map (fun p : List Char × List Char => (c :: p.1, p.2))

/-- Split the content of a `[...]` class (input starts after `[`): negation
flag, set content, remainder after the closing `]`; `none` if unterminated. -/
def parseClass (cs : List Char) : Option (Bool × List Char × List Char) :=
  let np := match cs with
    | '!' :: rest => (true, rest)
    | _ => (false, cs)
  let body := match np.2 with
    | ']' :: rest =>
      (scanClassClose rest).map (fun p : List Char × List Char => (']' :: p.1, p.2))
    | other => scanClassClose other
  body.map (fun p : List Char × List Char => (np.1, p.1, p.2))

/-- Membership of a character in a `[...]` set with `a-z` ranges. -/
def inClassSet : List Char → Char → Bool
  | a :: '-' :: b :: rest, c =>
    (a ≤ c && c ≤ b) || inClassSet rest c
  | a :: rest, c => a == c || inClassSet rest c
  | [], _ => false

def fnmatchFuel : Nat → List Char → List Char → Bool
  | 0, _, _ => false
  | _ + 1, [], [] => true
  | _ + 1, [], _ :: _ => false
  | fuel + 1, '*' :: ps, name =>
    fnmatchFuel fuel ps name ||
      match name with
      | [] => false
      | _ :: ns => fnmatchFuel fuel ('*' :: ps) ns
  | fuel + 1, '?' :: ps, _ :: ns => fnmatchFuel fuel ps ns
  | _ + 1, '?' :: _, [] => false
  | fuel + 1, '[' :: ps, name =>
    (match parseClass ps with
     | some (neg, set, rest) =>
       match name with
       | [] => false
       | c :: ns => (inClassSet set c != neg) && fnmatchFuel fuel rest ns
     | none =>
       match name with
       | [] => false
       | c :: ns => (c == '[') && fnmatchFuel fuel ps ns)
  | fuel + 1, p :: ps, c :: ns => p == c && fnmatchFuel fuel ps ns
  | _ + 1, _ :: _, [] => false

/-- `fnmatch.fnmatch(name, pattern)` (POSIX: case preserved). -/
def fnmatch (name pat : List Char) : Bool :=
  fnmatchFuel (pat.length + name.length + 1) pat name

/-- The hard-coded fast-path list of `_is_common_ignored_path`. -/
def common_ignored : List (List Char) :=
  ["node_modules/", "__pycache__/", ".git/", ".svn/", ".hg/",
   "venv/", "env/", ".env/", "virtualenv/", ".venv/",
   "build/", "dist/", "target/", "out/", ".next/", ".nuxt/",
   ".idea/", ".vscode/", ".vs/", "*.pyc", "*.pyo", "*.class",
   "*.o", "*.so", "*.dll", "*.exe", "*.bin", "*.jar", "*.war",
   "*.log", "*.tmp", "*.temp", "*.cache", "*.swp", "*.swo",
   ".DS_Store", "Thumbs.db", "*.min.js", "*.min.css",
   "coverage/", ".coverage", ".nyc_output/", "htmlcov/",
   ".pytest_cache/", ".tox/", ".mypy_cache/", ".ruff_cache/"].map String.data

/-- `GitignoreParser._is_common_ignored_path(path_str)`. -/
def is_common_ignored_path (path_str : List Char) : Bool :=
  common_ignored.any fun ignored =>
    if listEndsWith ignored ['/'] then
      (splitSlash path_str).contains (ignored.take (ignored.length - 1))
    else if listStartsWith ['*', '.'] ignored then
      listEndsWith path_str (ignored.drop 1)
    else
      listContains path_str ignored

/-- The per-pattern match of the rule-evaluation loop of `is_ignored`:
absolute patterns match the full relative path, others any suffix of the
component list or any single component. -/
def anyPartMatch : List (List Char) → List Char → Bool
  | [], _ => false
  | p :: rest, pat =>
    fnmatch (joinSlash (p :: rest)) pat || fnmatch p pat ||
      anyPartMatch rest pat

def patternMatches (path_str : List Char) (p : GitignorePattern) : Bool :=
  if p.is_absolute then fnmatch path_str p.pattern
  else anyPartMatch (splitSlash path_str) p.pattern

/-- `GitignoreParser.is_ignored` for a path inside the repository root:
`path_str` is the `'/'`-normalised relative path and `isFile` the result of
`file_path.is_file()`.  (A path outside the root returns `True` before this
logic runs and is not modelled.) -/
def is_ignored (patterns : List GitignorePattern) (path_str : List Char)
    (isFile : Bool) : Bool :=
  if is_common_ignored_path path_str then true
  else
    patterns.foldl
      (fun acc p =>
        if p.is_directory && isFile then acc
        else if patternMatches path_str p then
          (if p.is_negation then false else true)
        else acc)
      false

/-- Spec side: a rule participates when it is not skipped by the
directory-only/file check and its pattern matches. -/
def ruleApplies (path_str : List Char) (isFile : Bool)
    (p : GitignorePattern) : Bool :=
  !(p.is_directory && isFile) && patternMatches path_str p

/-- Spec side ("last matching rule wins"): the decision of the last rule, in
file order, that applies to the path; not ignored when no rule applies. -/
def lastMatchDecision (patterns : List GitignorePattern) (path_str : List Char)
    (isFile : Bool) : Bool :=
  match (patterns.filter (ruleApplies path_str isFile)).getLast? with
  | some p => !p.is_negation
  | none => false

/-- The two-line ignore file of the spec's scenario: `build/` then
`!build/keep.txt`. -/
def scenarioPatterns : List GitignorePattern :=
  [normalize_pattern "build/".data, normalize_pattern "!build/keep.txt".data]

/-! ## File records and the analysis-eligibility filter

`IndexRepoAgent._scan_files` builds one dict per surviving file; those are the
records the scheduler filters (`main.py`, lines 982–1032 and 208–231). -/

structure FileInfo where
  path : List Char
  relative_path : List Char
  name : List Char
  extension : List Char
  size : Nat
  category : List Char
deriving Repr, DecidableEq

/-- Python `str.lower()` (ASCII; the compared literals are ASCII). -/
def pyLower (l : List Char) : List Char := l.map Char.toLower

def analyzable_extensions : List (List Char) :=
  [".py", ".js", ".ts", ".jsx", ".tsx", ".java", ".cpp", ".c", ".h",
   ".cs", ".php", ".rb", ".go", ".rs", ".kt", ".scala", ".swift",
   ".vue", ".svelte", ".dart", ".r", ".jl", ".m", ".mm"].map String.data

def documentation_extensions : List (List Char) :=
  [".md", ".txt", ".rst", ".org", ".adoc"].map String.data

def analyze_skip_patterns : List (List Char) :=
  ["test", "spec", "__test__", ".test.", ".spec.",
   "mock", "fixture", "sample", "example",
   "vendor", "third_party", "external",
   "generated", "auto", "build", "dist",
   "min.js", "min.css", "bundle.js", "bundle.css",
   "lock.json", "package-lock.json", "yarn.lock",
   "migration", "seed", "schema.sql"].map String.data

def analyze_priority_dirs : List (List Char) :=
  ["src", "lib", "app", "components", "pages", "views", "controllers",
   "models", "services"].map String.data

/-- `IndexRepoAgent._should_analyze_file(file_info)`. -/
def should_analyze_file (fi : FileInfo) : Bool :=
  let file_path := pyLower fi.path
  let file_name := pyLower fi.name
  if documentation_extensions.contains fi.extension ||
      fi.category == "documentation".data then
    -- 100KB limit for docs
    if fi.size > 100000 then false else true
  else if analyzable_extensions.contains fi.extension then
    if analyze_skip_patterns.any
        (fun pat => listContains file_path pat || listContains file_name pat) then
      false
    else if fi.size < 50 || fi.size > 500000 then false
    else
      let has_priority_dir :=
        analyze_priority_dirs.any (fun d => listContains file_path d)
      if !has_priority_dir && fi.category != "code".data then false
      else true
  else false

/-- Default `max_file_size` of the `IndexRepoAgent` constructor. -/
def defaultMaxFileSize : Nat := 100000

/-- The filter `_analyze_with_ast` applies before scheduling
(`file_info["size"] < self.max_file_size and self._should_analyze_file(...)`). -/
def analyzableFiles (max_file_size : Nat) (files : List FileInfo) :
    List FileInfo :=
  files.filter fun fi =>
    decide (fi.size < max_file_size) && should_analyze_file fi

/-- The 260,000-byte code file of the spec's scenario: a plain source file
under a conventional source directory, clean of every skip pattern. -/
def file260k : FileInfo :=
  { path := "/repo/src/app.py".data, relative_path := "src/app.py".data,
    name := "app.py".data, extension := ".py".data, size := 260000,
    category := "code".data }

/-- The 40-byte code file of the spec's scenario. -/
def file40 : FileInfo :=
  { path := "/repo/src/tiny.py".data, relative_path := "src/tiny.py".data,
    name := "tiny.py".data, extension := ".py".data, size := 40,
    category := "code".data }

/-! ## Documentation structures and the structure planner

Data model from `index_repo_agent/models.py`; the three planner tiers are
`IntelligentStructureAnalyzer._generate_intelligent_folders`,
`DocumentationGenerator._generate_ai_fallback_structure` (the JSON-parsing
part; the chat call itself is an external collaborator) and
`DocumentationGenerator._create_default_structure`. -/

inductive DocumentationSection where
  | mk (name title description content : String)
      (subsections : List DocumentationSection)

/-- The dataclass defaults `content=""`, `subsections=[]`. -/
def mkSection (name title description : String) : DocumentationSection :=
  .mk name title description "" []

structure DocumentationFolder where
  name : String
  title : String
  description : String
  sections : List DocumentationSection

structure DocumentationStructure where
  readme : String
  folders : List DocumentationFolder

/-- One collected API-endpoint record (`analysis.apis` entries); only the
`path` key is read by the planner. -/
structure ApiEndpoint where
  path : String

/-- The slice of `_analyze_components`' result dict that
`_generate_intelligent_folders` reads: the keys of `component_types`, the
`inheritance_graph` dict, the collected endpoints and the class total. -/
structure ComponentAnalysis where
  component_types : List String
  inheritance_graph : List (String × List String)
  api_endpoints : List ApiEndpoint
  total_classes : Nat
  total_functions : Nat

/-- The boolean presence signals of `_analyze_file_patterns`. -/
structure FilePatterns where
  has_web_framework : Bool
  has_cli : Bool
  has_tests : Bool
  has_database : Bool
  has_api : Bool
  has_frontend : Bool
  has_docker : Bool
  has_ci_cd : Bool

/-- The slice of `_analyze_technology_stack`'s result the generators receive
(no generator reads past `primary_language`). -/
structure TechStack where
  primary_language : String
  frameworks : List String

/-- Python `str.title()` for the ASCII group names that reach it: uppercase
the first letter of every run of letters, lowercase the rest. -/
def pyTitleGo : Bool → List Char → List Char
  | _, [] => []
  | prevAlpha, c :: rest =>
    if c.isAlpha then
      (if prevAlpha then c.toLower else c.toUpper) :: pyTitleGo true rest
    else c :: pyTitleGo false rest

def pyTitle (s : String) : String := String.mk (pyTitleGo false s.data)

/-- `IntelligentStructureAnalyzer._generate_architecture_sections`. -/
def generate_architecture_sections (comp : ComponentAnalysis) :
    List DocumentationSection :=
  let sections :=
    [mkSection "overview" "System Overview"
       "High-level system architecture and design principles",
     mkSection "components" "Core Components"
       "Main architectural components and their responsibilities"]
  let sections :=
    if !comp.api_endpoints.isEmpty || comp.total_classes > 10 then
      sections ++ [mkSection "data-flow" "Data Flow"
        "How data moves through the system"]
    else sections
  if !comp.inheritance_graph.isEmpty || comp.total_classes > 5 then
    sections ++ [mkSection "patterns" "Design Patterns"
      "Architectural patterns and design decisions"]
  else sections

/-- `IntelligentStructureAnalyzer._generate_component_folders`. -/
def generate_component_folders (comp : ComponentAnalysis) :
    List DocumentationFolder :=
  let ct := comp.component_types
  let businessFolders :=
    if ["agents", "managers", "services"].any (fun t => ct.contains t) then
      let business_sections :=
        (if ct.contains "agents" then
          [mkSection "agents" "Agent Components"
            "Autonomous agent components and their capabilities"] else []) ++
        (if ct.contains "managers" then
          [mkSection "managers" "Manager Components"
            "Management and coordination components"] else []) ++
        (if ct.contains "services" then
          [mkSection "services" "Service Components"
            "Business logic and service layer components"] else [])
      if !business_sections.isEmpty then
        [{ name := "components", title := "Business Components",
           description := "Core business logic and processing components",
           sections := business_sections }]
      else []
    else []
  let dataFolders :=
    if ["models", "databases", "clients"].any (fun t => ct.contains t) then
      let data_sections :=
        (if ct.contains "models" then
          [mkSection "models" "Data Models"
            "Data structures and model definitions"] else []) ++
        (if ct.contains "databases" then
          [mkSection "databases" "Database Components"
            "Database access and storage components"] else []) ++
        (if ct.contains "clients" then
          [mkSection "clients" "Client Components"
            "External service clients and adapters"] else [])
      if !data_sections.isEmpty then
        [{ name := "data", title := "Data & Infrastructure",
           description := "Data models, storage, and external integrations",
           sections := data_sections }]
      else []
    else []
  businessFolders ++ dataFolders

/-- The `defaultdict` grouping of `_generate_api_sections`: association list
in first-appearance order, holding each group's endpoint count. -/
def addEndpointGroup (groups : List (String × Nat)) (key : String) :
    List (String × Nat) :=
  match groups with
  | [] => [(key, 1)]
  | (k, n) :: rest =>
    if k == key then (k, n + 1) :: rest
    else (k, n) :: addEndpointGroup rest key

def endpointGroupKey (e : ApiEndpoint) : String :=
  if e.path.startsWith "/api/" then
    let parts := e.path.splitOn "/"
    if parts.length > 2 then parts.getD 2 "" else "general"
  else "general"

/-- `IntelligentStructureAnalyzer._generate_api_sections`. -/
def generate_api_sections (api_endpoints : List ApiEndpoint) :
    List DocumentationSection :=
  let base :=
    [mkSection "overview" "API Overview"
       "REST API overview and authentication",
     mkSection "endpoints" "Endpoints"
       "Available API endpoints and their usage"]
  let groups := api_endpoints.foldl
    (fun gs e => addEndpointGroup gs (endpointGroupKey e)) []
  base ++
    (groups.filter (fun g => g.1 != "general" && g.2 > 1)).map
      (fun g => mkSection (g.1 ++ "-endpoints") (pyTitle g.1 ++ " Endpoints")
        ("API endpoints for " ++ g.1 ++ " functionality"))

/-- `IntelligentStructureAnalyzer._generate_cli_sections`. -/
def generate_cli_sections : List DocumentationSection :=
  [mkSection "overview" "CLI Overview"
     "Command line interface overview and installation",
   mkSection "commands" "Available Commands"
     "All available CLI commands and their usage",
   mkSection "examples" "Usage Examples"
     "Common CLI usage patterns and examples"]

/-- `IntelligentStructureAnalyzer._generate_deployment_sections`. -/
def generate_deployment_sections (pats : FilePatterns) :
    List DocumentationSection :=
  (if pats.has_docker then
    [mkSection "docker" "Docker Deployment"
      "Docker containerization and deployment"] else []) ++
  (if pats.has_ci_cd then
    [mkSection "ci-cd" "CI/CD Pipeline"
      "Continuous integration and deployment pipeline"] else []) ++
  [mkSection "production" "Production Deployment"
    "Production deployment guidelines and best practices"]

/-- `IntelligentStructureAnalyzer._generate_development_sections`. -/
def generate_development_sections (pats : FilePatterns) :
    List DocumentationSection :=
  [mkSection "setup" "Development Setup"
     "Setting up the development environment",
   mkSection "workflow" "Development Workflow"
     "Development process and best practices"] ++
  (if pats.has_tests then
    [mkSection "testing" "Testing Guide"
      "Running tests and testing guidelines"] else []) ++
  [mkSection "contributing" "Contributing"
    "Guidelines for contributing to the project"]

/-- `IntelligentStructureAnalyzer._generate_intelligent_folders` (tier 1 of
the planner).  `directory_analysis` and the technology stack are threaded as
in the source; the folder generators never read the former. -/
def generate_intelligent_folders (comp : ComponentAnalysis)
    (pats : FilePatterns) (_tech : TechStack) : List DocumentationFolder :=
  let folders :=
    [{ name := "architecture", title := "Architecture Documentation",
       description := "System design, components, and architectural decisions",
       sections := generate_architecture_sections comp }]
  let folders := folders ++ generate_component_folders comp
  let folders :=
    if !comp.api_endpoints.isEmpty then
      folders ++
        [{ name := "apis", title := "API Documentation",
           description := "REST API endpoints and usage",
           sections := generate_api_sections comp.api_endpoints }]
    else folders
  let folders :=
    if pats.has_cli then
      folders ++
        [{ name := "cli", title := "Command Line Interface",
           description := "CLI commands and usage",
           sections := generate_cli_sections }]
    else folders
  let folders :=
    if pats.has_docker || pats.has_ci_cd then
      folders ++
        [{ name := "deployment", title := "Deployment & CI/CD",
           description := "Deployment processes and continuous integration",
           sections := generate_deployment_sections pats }]
    else folders
  folders ++
    [{ name := "development", title := "Development Guide",
       description := "Development setup, workflows, and guidelines",
       sections := generate_development_sections pats }]

/-- `DocumentationGenerator._create_default_structure` (tier 3).  `hasApis`
is `self._has_apis(ast_analysis)`; README generation is an external
text-generation call and enters as a parameter. -/
def create_default_structure (hasApis : Bool) (readme_content : String) :
    DocumentationStructure :=
  let arch_sections :=
    [mkSection "overview" "System Overview" "High-level system architecture",
     mkSection "components" "Core Components" "Main architectural components",
     mkSection "data-flow" "Data Flow" "How data moves through the system",
     mkSection "patterns" "Design Patterns" "Architectural patterns used"]
  let comp_sections :=
    [mkSection "core" "Core Components" "Essential system components",
     mkSection "utilities" "Utility Components"
       "Helper and utility components"] ++
    (if hasApis then
      [mkSection "api" "API Components" "API endpoints and handlers"]
     else [])
  let dev_sections :=
    [mkSection "setup" "Development Setup"
       "How to set up the development environment",
     mkSection "workflow" "Development Workflow"
       "Development process and best practices",
     mkSection "testing" "Testing Guide" "How to test the application",
     mkSection "contributing" "Contributing"
       "Guidelines for contributing to the project"]
  { readme := readme_content,
    folders :=
      [{ name := "architecture", title := "Architecture Documentation",
         description := "System design and architectural decisions",
         sections := arch_sections },
       { name := "components", title := "Component Documentation",
         description := "Detailed documentation for each system component",
         sections := comp_sections },
       { name := "development", title := "Development Guide",
         description := "Development setup, workflows, and guidelines",
         sections := dev_sections }] }

/-- One `folders[i]` entry of the JSON the AI tier parses. -/
structure FolderData where
  name : String
  title : String
  description : String
  sections : List (String × String × String)

/-- `DocumentationGenerator._generate_ai_fallback_structure` (tier 2), from
the point where the chat response is in hand: `parsed` is
`json.loads(structure_response)`'s `folders` list (`none` models a
`JSONDecodeError`, which falls back to the default structure). -/
def generate_ai_fallback_structure (parsed : Option (List FolderData))
    (hasApis : Bool) (readme_content : String) : DocumentationStructure :=
  match parsed with
  | none => create_default_structure hasApis readme_content
  | some folderDatas =>
    { readme := readme_content,
      folders := folderDatas.map fun fd =>
        { name := fd.name, title := fd.title, description := fd.description,
          sections := fd.sections.map fun s => mkSection s.1 s.2.1 s.2.2 } }

/-! ## ASTAnalyzer._calculate_function_complexity

`index_repo_agent/ast_analyzer.py`, lines 529–541.  The Python AST is
abstracted to the node kinds the function discriminates on; every other node
kind is `other`.  `ast.walk` yields the node itself and all descendants (its
order is irrelevant here: only a sum over the walk is taken). -/

inductive PyNode where
  | ifStmt (children : List PyNode)
  | whileStmt (children : List PyNode)
  | forStmt (children : List PyNode)
  | asyncForStmt (children : List PyNode)
  | exceptHandler (children : List PyNode)
  | boolOp (values : List PyNode)
  | functionDef (children : List PyNode)
  | other (children : List PyNode)

mutual

/-- `ast.walk(node)`: the node and all its descendants. -/
def PyNode.walk : PyNode → List PyNode
  | .ifStmt cs => .ifStmt cs :: PyNode.walkAll cs
  | .whileStmt cs => .whileStmt cs :: PyNode.walkAll cs
  | .forStmt cs => .forStmt cs :: PyNode.walkAll cs
  | .asyncForStmt cs => .asyncForStmt cs :: PyNode.walkAll cs
  | .exceptHandler cs => .exceptHandler cs :: PyNode.walkAll cs
  | .boolOp vs => .boolOp vs :: PyNode.walkAll vs
  | .functionDef cs => .functionDef cs :: PyNode.walkAll cs
  | .other cs => .other cs :: PyNode.walkAll cs

def PyNode.walkAll : List PyNode → List PyNode
  | [] => []
  | n :: ns => n.walk ++ PyNode.walkAll ns

end

/-- The per-node increment of the loop body of
`_calculate_function_complexity`. -/
def complexityScore : PyNode → Int
  | .ifStmt _ | .whileStmt _ | .forStmt _ | .asyncForStmt _ => 1
  | .exceptHandler _ => 1
  | .boolOp vs => (vs.length : Int) - 1
  | .functionDef _ | .other _ => 0

/-- `ASTAnalyzer._calculate_function_complexity(node)`: base 1, plus the
score of every node `ast.walk` yields. -/
def calculate_function_complexity (node : PyNode) : Int :=
  node.walk.foldl (fun acc child => acc + complexityScore child) 1

mutual

/-- Spec side: conditional statements (`ast.If`) in the tree. -/
def PyNode.condCount : PyNode → Int
  | .ifStmt cs => 1 + PyNode.condCountAll cs
  | .whileStmt cs | .forStmt cs | .asyncForStmt cs | .exceptHandler cs
  | .functionDef cs | .other cs => PyNode.condCountAll cs
  | .boolOp vs => PyNode.condCountAll vs

def PyNode.condCountAll : List PyNode → Int
  | [] => 0
  | n :: ns => n.condCount + PyNode.condCountAll ns

end

mutual

/-- Spec side: loops (`ast.While`, `ast.For`, `ast.AsyncFor`). -/
def PyNode.loopCount : PyNode → Int
  | .whileStmt cs | .forStmt cs | .asyncForStmt cs =>
    1 + PyNode.loopCountAll cs
  | .ifStmt cs | .exceptHandler cs | .functionDef cs | .other cs =>
    PyNode.loopCountAll cs
  | .boolOp vs => PyNode.loopCountAll vs

def PyNode.loopCountAll : List PyNode → Int
  | [] => 0
  | n :: ns => n.loopCount + PyNode.loopCountAll ns

end

mutual

/-- Spec side: exception handlers (`ast.ExceptHandler`). -/
def PyNode.handlerCount : PyNode → Int
  | .exceptHandler cs => 1 + PyNode.handlerCountAll cs
  | .ifStmt cs | .whileStmt cs | .forStmt cs | .asyncForStmt cs
  | .functionDef cs | .other cs => PyNode.handlerCountAll cs
  | .boolOp vs => PyNode.handlerCountAll vs

def PyNode.handlerCountAll : List PyNode → Int
  | [] => 0
  | n :: ns => n.handlerCount + PyNode.handlerCountAll ns

end

mutual

/-- Spec side: `(number of boolean operands − 1)` summed over every boolean
expression (`ast.BoolOp`). -/
def PyNode.boolExcess : PyNode → Int
  | .boolOp vs => ((vs.length : Int) - 1) + PyNode.boolExcessAll vs
  | .ifStmt cs | .whileStmt cs | .forStmt cs | .asyncForStmt cs
  | .exceptHandler cs | .functionDef cs | .other cs => PyNode.boolExcessAll cs

def PyNode.boolExcessAll : List PyNode → Int
  | [] => 0
  | n :: ns => n.boolExcess + PyNode.boolExcessAll ns

end

/-! ## The IndexRepoAgent orchestration state machine

`index_repo_agent/main.py`.  The LangGraph workflow is a fixed chain
`initialize → scan_repo → analyze_ast → generate_structure →
generate_folder_docs → write_docs → store_docs → next_repo` with a
conditional edge at `next_repo` driven by `_should_continue`
(`continue`/`generate_general`/`error`).  Each node is a state transformer;
the external collaborators each node calls (filesystem scan, git metadata,
the text-generation client, the vector store) are fields of an environment
record, assumed total — what is verified is the orchestration logic itself.
The state carries the fields of the `IndexState` TypedDict. -/

/-- A repository-metadata dict (built from git and filesystem probes by
`_get_repo_metadata`; opaque to the orchestration logic). -/
abbrev RepoMetadata := List (String × String)

/-- The `generated_docs` dict: an optional `"README.md"` entry and a
`"folders"` map of folder name → (file name → content). -/
structure GeneratedDocs where
  readme : Option String
  folders : List (String × List (String × String))

/-- One entry of `all_docs` (`doc_entry` in `_store_documentation`). -/
structure DocEntry where
  repo_path : String
  documents : GeneratedDocs
  metadata : RepoMetadata
  memo_content : String

/-- The `IndexState` TypedDict of `models.py`.  The per-file analysis payload
is opaque to the orchestration (`String` blobs keyed by relative path). -/
structure IndexState where
  repo_paths : List String
  current_repo_index : Nat
  current_repo_path : String
  repo_files : List FileInfo
  ast_analysis : List (List Char × String)
  generated_docs : GeneratedDocs
  documentation_structure : Option DocumentationStructure
  current_folder_index : Nat
  current_section_index : Nat
  repo_metadata : RepoMetadata
  all_docs : List DocEntry
  general_memo : String
  success : Bool
  error : Option String
  output_dir : Option String

/-- The out-of-scope collaborators, as total functions. -/
structure AgentEnv where
  pathExists : String → Bool
  scanFiles : String → List FileInfo
  repoMetadata : String → RepoMetadata
  analyzeFile : FileInfo → Option String
  docStructure : String → DocumentationStructure
  folderDocs : String → GeneratedDocs
  fallbackReadme : String → String
  generalMemo : List DocEntry → String

/-- Constructor configuration of `IndexRepoAgent` (the fields the modelled
nodes read). -/
structure AgentConfig where
  max_file_size : Nat := 100000

/-- `IndexRepoAgent._initialize`. -/
def init_node (s : IndexState) : IndexState :=
  { s with current_repo_index := 0, all_docs := [], success := false,
           error := none }

/-- `IndexRepoAgent._scan_repository`.  A missing path (and an out-of-range
index) only set `error`; nothing stops the chain here. -/
def scan_repository (env : AgentEnv) (s : IndexState) : IndexState :=
  if s.repo_paths.length ≤ s.current_repo_index then
    { s with error := some "Index out of bounds" }
  else
    let repo_path := s.repo_paths.getD s.current_repo_index ""
    if !env.pathExists repo_path then
      { s with error := some ("Repository path does not exist: " ++ repo_path) }
    else
      { s with current_repo_path := repo_path,
               repo_files := env.scanFiles repo_path,
               repo_metadata := env.repoMetadata repo_path }

/-- `IndexRepoAgent._file_analysis_priority` (the large-repository cap's sort
key; Python `sorted` is ascending and stable). -/
def file_analysis_priority (fi : FileInfo) : Nat × Int :=
  let file_path := pyLower fi.path
  let file_name := pyLower fi.name
  let important_files : List (List Char) :=
    ["main.py", "app.py", "index.js", "main.js", "server.js",
     "__init__.py"].map String.data
  if important_files.contains file_name then (0, -(fi.size : Int))
  else if (["src/", "lib/", "app/", "components/", "pages/"].map
      String.data).any (fun d => listContains file_path d) then
    (1, -(fi.size : Int))
  else if fi.category == "code".data then (2, -(fi.size : Int))
  else if fi.category == "config".data then (3, -(fi.size : Int))
  else (4, -(fi.size : Int))

/-- Ascending lexicographic comparison of priority keys. -/
def priorityLe (a b : FileInfo) : Bool :=
  let ka := file_analysis_priority a
  let kb := file_analysis_priority b
  decide (ka.1 < kb.1) || (ka.1 == kb.1 && decide (ka.2 ≤ kb.2))

/-- `IndexRepoAgent._analyze_with_ast`.  With zero analyzable files,
`min(4, 0) = 0` workers make `ThreadPoolExecutor(max_workers=0)` raise
`ValueError("max_workers must be greater than 0")`, which the node's
`except` turns into a state error.  Otherwise the pool fan-out/fan-in merges
each successful per-file analysis into the map, dropping failures. -/
def analyze_with_ast (env : AgentEnv) (cfg : AgentConfig) (s : IndexState) :
    IndexState :=
  let analyzable_files := analyzableFiles cfg.max_file_size s.repo_files
  if analyzable_files = [] then
    { s with
      error := some "Failed to perform AST analysis: max_workers must be greater than 0" }
  else
    let analyzable_files :=
      if 5000 < analyzable_files.length then
        (analyzable_files.mergeSort priorityLe).take 5000
      else analyzable_files
    { s with ast_analysis := analyzable_files.filterMap fun fi =>
        (env.analyzeFile fi).map fun a => (fi.relative_path, a) }

/-- `IndexRepoAgent._generate_structure` (the structure generation itself is
the planner/LLM collaborator). -/
def generate_structure (env : AgentEnv) (s : IndexState) : IndexState :=
  { s with documentation_structure := some (env.docStructure s.current_repo_path),
           current_folder_index := 0, current_section_index := 0 }

/-- `IndexRepoAgent._generate_folder_docs` (AI generation with fallbacks is
the collaborator; the node stores its result). -/
def generate_folder_docs (env : AgentEnv) (s : IndexState) : IndexState :=
  { s with generated_docs := env.folderDocs s.current_repo_path }

/-- `IndexRepoAgent._write_documentation_files`: pure filesystem output (and
a skip when no output directory is configured); no tracked state field
changes. -/
def write_documentation_files (s : IndexState) : IndexState :=
  match s.output_dir with
  | none => s
  | some _ => s

/-- `IndexRepoAgent._store_documentation`: pushes documents to the vector
store (external) and appends this repository's `doc_entry` to `all_docs`. -/
def store_documentation (env : AgentEnv) (s : IndexState) : IndexState :=
  let readme_content :=
    match s.generated_docs.readme with
    | some r => if r = "" then env.fallbackReadme s.current_repo_path else r
    | none => env.fallbackReadme s.current_repo_path
  let combined_memo :=
    s.generated_docs.folders.foldl
      (fun acc p =>
        p.2.foldl
          (fun acc2 q => acc2 ++ "\n\n# " ++ p.1 ++ "/" ++ q.1 ++ "\n\n" ++ q.2)
          acc)
      (readme_content ++ "\n\n")
  { s with all_docs := s.all_docs ++
      [{ repo_path := s.current_repo_path, documents := s.generated_docs,
         metadata := s.repo_metadata, memo_content := combined_memo }] }

/-- `IndexRepoAgent._next_repo`: advance and clear every per-repository
field (`error` is not among them). -/
def next_repo (s : IndexState) : IndexState :=
  { s with current_repo_index := s.current_repo_index + 1,
           current_repo_path := "", repo_files := [], ast_analysis := [],
           generated_docs := { readme := none, folders := [] },
           documentation_structure := none, current_folder_index := 0,
           current_section_index := 0, repo_metadata := [] }

inductive ContinueDecision where
  | continueRepos
  | generateGeneral
  | errorRoute
deriving Repr, DecidableEq

/-- `IndexRepoAgent._should_continue`: any recorded error routes to the
error handler; otherwise loop until the path list is exhausted. -/
def should_continue (s : IndexState) : ContinueDecision :=
  if s.error.isSome then .errorRoute
  else if s.repo_paths.length ≤ s.current_repo_index then .generateGeneral
  else .continueRepos

/-- `IndexRepoAgent._generate_general_memo` (the memo text for a non-empty
batch is the text-generation collaborator's). -/
def generate_general_memo (env : AgentEnv) (s : IndexState) : IndexState :=
  if s.all_docs.isEmpty then
    { s with general_memo := "No repositories were successfully indexed." }
  else
    { s with general_memo := env.generalMemo s.all_docs }

/-- `IndexRepoAgent._finalize`. -/
def finalize_node (s : IndexState) : IndexState :=
  { s with success := true }

/-- `IndexRepoAgent._handle_error`. -/
def handle_error (s : IndexState) : IndexState :=
  { s with success := false }

/-- One pass along the unconditional chain
`scan_repo → … → store_docs → next_repo`. -/
def pipelineCycle (env : AgentEnv) (cfg : AgentConfig) (s : IndexState) :
    IndexState :=
  next_repo (store_documentation env (write_documentation_files
    (generate_folder_docs env (generate_structure env
      (analyze_with_ast env cfg (scan_repository env s))))))

/-- The compiled graph from `scan_repo` onward: cycle, then follow the
conditional edge.  One unit of fuel per cycle; `repo_paths.length + 1`
suffices because `continue` requires the freshly incremented index to still
be below the path count. -/
def runFrom (env : AgentEnv) (cfg : AgentConfig) :
    Nat → IndexState → IndexState
  | 0, s => s
  | fuel + 1, s =>
    let s1 := pipelineCycle env cfg s
    match should_continue s1 with
    | .errorRoute => handle_error s1
    | .generateGeneral => finalize_node (generate_general_memo env s1)
    | .continueRepos => runFrom env cfg fuel s1

/-- The result dict of `IndexRepoAgent.index_repositories`. -/
structure IndexResult where
  success : Bool
  error : Option String
  individual_memos : List DocEntry
  general_memo : String
  total_repos : Nat
  output_dir : Option String

/-- `IndexRepoAgent.index_repositories(repo_paths, output_dir)`: build the
initial state, invoke the graph, project the result dict. -/
def index_repositories (env : AgentEnv) (cfg : AgentConfig)
    (repo_paths : List String) (output_dir : Option String) : IndexResult :=
  let initial : IndexState :=
    { repo_paths := repo_paths, current_repo_index := 0,
      current_repo_path := "", repo_files := [], ast_analysis := [],
      generated_docs := { readme := none, folders := [] },
      documentation_structure := none, current_folder_index := 0,
      current_section_index := 0, repo_metadata := [], all_docs := [],
      general_memo := "", success := false, error := none,
      output_dir := output_dir }
  let result := runFrom env cfg (repo_paths.length + 1) (init_node initial)
  { success := result.success, error := result.error,
    individual_memos := result.all_docs, general_memo := result.general_memo,
    total_repos := repo_paths.length, output_dir := result.output_dir }

/-- A concrete trivial environment for closed counterexamples. -/
def envTrivial : AgentEnv :=
  { pathExists := fun _ => true, scanFiles := fun _ => [],
    repoMetadata := fun _ => [], analyzeFile := fun _ => none,
    docStructure := fun _ => { readme := "", folders := [] },
    folderDocs := fun _ => { readme := none, folders := [] },
    fallbackReadme := fun _ => "", generalMemo := fun _ => "" }

/-- A concrete analyzable source file for the batch scenario. -/
def goodFile : FileInfo :=
  { path := "/repo/src/app.py".data, relative_path := "src/app.py".data,
    name := "app.py".data, extension := ".py".data, size := 1000,
    category := "code".data }

/-- Environment for the three-repository scenario: `repoB` does not exist,
every existing repository scans to one analyzable file. -/
def envBatch : AgentEnv :=
  { envTrivial with
    pathExists := fun p => p != "repoB",
    scanFiles := fun _ => [goodFile],
    analyzeFile := fun _ => some "analysis" }

/-- Sum of the loop increments over a node list (proof-side abbreviation for
the `foldl` in `_calculate_function_complexity`). -/
def scoreSum (l : List PyNode) : Int := (l.map complexityScore).sum

/-! ## Theorems -/

theorem scoreSum_nil : scoreSum [] = 0 := rfl

theorem scoreSum_cons (n : PyNode) (l : List PyNode) :
    scoreSum (n :: l) = complexityScore n + scoreSum l := by
  simp [scoreSum]

theorem scoreSum_append (a b : List PyNode) :
    scoreSum (a ++ b) = scoreSum a + scoreSum b := by
  simp [scoreSum]

theorem foldl_add_score (l : List PyNode) (init : Int) :
    l.foldl (fun acc c => acc + complexityScore c) init = init + scoreSum l := by
  induction l generalizing init with
  | nil => simp [scoreSum]
  | cons x xs ih => rw [List.foldl_cons, ih, scoreSum_cons]; ring

/-- Joint walk/specification-count identity, by the mutual induction of
`PyNode.walk`. -/
theorem scoreSum_walk_spec :
    (∀ n : PyNode, scoreSum n.walk =
      n.condCount + n.loopCount + n.handlerCount + n.boolExcess) ∧
    (∀ ns : List PyNode, scoreSum (PyNode.walkAll ns) =
      PyNode.condCountAll ns + PyNode.loopCountAll ns +
        PyNode.handlerCountAll ns + PyNode.boolExcessAll ns) := by
  refine PyNode.walk.mutual_induct
    (motive_1 := fun n => scoreSum n.walk =
      n.condCount + n.loopCount + n.handlerCount + n.boolExcess)
    (motive_2 := fun ns => scoreSum (PyNode.walkAll ns) =
      PyNode.condCountAll ns + PyNode.loopCountAll ns +
        PyNode.handlerCountAll ns + PyNode.boolExcessAll ns)
    ?_ ?_ ?_ ?_ ?_ ?_ ?_ ?_ ?_ ?_ <;>
    intros <;>
    simp_all [PyNode.walk, PyNode.walkAll, scoreSum_nil, scoreSum_cons,
      scoreSum_append,
      complexityScore, PyNode.condCount, PyNode.condCountAll,
      PyNode.loopCount, PyNode.loopCountAll, PyNode.handlerCount,
      PyNode.handlerCountAll, PyNode.boolExcess, PyNode.boolExcessAll] <;>
    omega

/-- C9 (confirmed): for every Python function definition, the authoritative
analyzer's cyclomatic complexity is 1, plus one point for each conditional
statement, each loop and each exception handler in the function body, plus
(number of boolean operands − 1) for each boolean expression.  (`ast.walk`
yields the `FunctionDef` node itself as well; its own increment is 0, so the
counts below range exactly over the body.) -/
theorem function_complexity_formula (body : List PyNode) :
    calculate_function_complexity (.functionDef body) =
      1 + PyNode.condCountAll body + PyNode.loopCountAll body +
        PyNode.handlerCountAll body + PyNode.boolExcessAll body := by
  unfold calculate_function_complexity
  rw [foldl_add_score]
  have h := scoreSum_walk_spec.2 body
  simp only [PyNode.walk, scoreSum_cons, complexityScore] at *
  omega

/-- C5 (confirmed): an input no longer than the target chunk size is returned
as the single chunk, verbatim. -/
theorem split_memo_short_input (memo : List Char) (chunk_size overlap : Nat)
    (h : memo.length ≤ chunk_size) :
    split_memo memo chunk_size overlap = [memo] := by
  unfold split_memo
  rw [if_pos h]

/-- Witness for C5 at a concrete input. -/
theorem split_memo_short_input_witness :
    split_memo "abc".data 1000 200 = ["abc".data] :=
  split_memo_short_input "abc".data 1000 200 (by decide)

/-- The rule-evaluation fold of `is_ignored` implements last-match-wins: its
result is the decision of the last applicable matching rule, or the initial
accumulator when none applies. -/
theorem foldl_ignored_aux (path : List Char) (isFile : Bool) :
    ∀ (ps : List GitignorePattern) (b : Bool),
      ps.foldl (fun acc p =>
        if p.is_directory && isFile then acc
        else if patternMatches path p then
          (if p.is_negation then false else true)
        else acc) b =
      match (ps.filter (ruleApplies path isFile)).getLast? with
      | some p => !p.is_negation
      | none => b := by
  intro ps
  induction ps with
  | nil => intro b; simp
  | cons p ps ih =>
    intro b
    rw [List.foldl_cons, ih]
    by_cases hd : p.is_directory && isFile
    · have h1 : ruleApplies path isFile p = false := by
        simp [ruleApplies, hd]
      simp [List.filter_cons, h1, hd]
    · have hd' : (p.is_directory && isFile) = false := by
        revert hd; cases p.is_directory <;> cases isFile <;> simp
      by_cases hm : patternMatches path p
      · have h1 : ruleApplies path isFile p = true := by
          simp [ruleApplies, hd', hm]
        simp only [List.filter_cons, h1, if_true]
        cases hf : (ps.filter (ruleApplies path isFile)) with
        | nil =>
          simp only [hf, List.getLast?_singleton]
          simp [hd', hm]
        | cons q qs =>
          simp only [hf, List.getLast?_cons_cons]
          cases hql : (q :: qs).getLast? with
          | none => exact absurd hql (by simp)
          | some r => rfl
      · have h1 : ruleApplies path isFile p = false := by
          simp [ruleApplies, hm]
        simp [List.filter_cons, h1, hd', hm]

/-- C1 counterexample: with the rules `build/` then `!build/keep.txt`, the
file path `build/keep.txt` IS ignored — the claim says the later negation
rule un-ignores it.  The built-in common-ignored fast path (`build/` is on
its list) returns `True` before any rule, including the negation, is ever
evaluated. -/
theorem gitignore_negation_fastpath_cex :
    is_ignored scenarioPatterns "build/keep.txt".data true = true := by decide

/-- C1 (amended): for paths NOT matched by the built-in common-ignored fast
path, `is_ignored` is decided by the last rule in file order that applies to
the path (directory-only rules are skipped for files, and a later negation
match un-ignores); for paths the fast path matches, the rules are never
consulted — in the scenario `build/` then `!build/keep.txt`, both
`build/a.o` and `build/keep.txt` are ignored. -/
theorem gitignore_last_match_amended :
    (∀ (patterns : List GitignorePattern) (path : List Char) (isFile : Bool),
        is_common_ignored_path path = false →
        is_ignored patterns path isFile =
          lastMatchDecision patterns path isFile) ∧
    is_ignored scenarioPatterns "build/a.o".data true = true ∧
    is_ignored scenarioPatterns "build/keep.txt".data true = true := by
  refine ⟨?_, by decide, by decide⟩
  intro patterns path isFile h
  unfold is_ignored lastMatchDecision
  rw [if_neg (by simp [h])]
  exact foldl_ignored_aux path isFile patterns false

/-- Witness for C1: the fast-path hypothesis discharged at the concrete path
`src/keep.txt`. -/
theorem gitignore_last_match_amended_witness :
    is_ignored scenarioPatterns "src/keep.txt".data true =
      lastMatchDecision scenarioPatterns "src/keep.txt".data true :=
  gitignore_last_match_amended.1 scenarioPatterns "src/keep.txt".data true
    (by decide)

/-- C6 counterexample: under the default configuration the 260,000-byte code
file is NOT analysis-eligible — `_should_analyze_file` accepts it (its code
ceiling is 500,000), but `_analyze_with_ast` first requires
`size < max_file_size` with the constructor default of 100,000. -/
theorem analysis_eligibility_cex :
    should_analyze_file file260k = true ∧
    analyzableFiles defaultMaxFileSize [file260k] = [] := by decide

/-- C6 (amended): the 40-byte code file is excluded (below the 50-byte
minimum) under every configuration; the 260,000-byte code file passes
`_should_analyze_file` (below its 500,000-byte ceiling) and is
analysis-eligible exactly when the orchestrator's `max_file_size` exceeds
260,000 — under the default 100,000 it is excluded. -/
theorem analysis_eligibility_amended :
    should_analyze_file file40 = false ∧
    (∀ m : Nat, analyzableFiles m [file40] = []) ∧
    should_analyze_file file260k = true ∧
    (∀ m : Nat, 260000 < m → analyzableFiles m [file260k] = [file260k]) ∧
    analyzableFiles defaultMaxFileSize [file260k] = [] := by
  refine ⟨by decide, ?_, by decide, ?_, by decide⟩
  · intro m
    simp [analyzableFiles, (by decide : should_analyze_file file40 = false)]
  · intro m hm
    simp [analyzableFiles, (by decide : should_analyze_file file260k = true),
      show file260k.size < m from hm]

/-- Witness for C6: a `max_file_size` above 260,000 admits the file. -/
theorem analysis_eligibility_amended_witness :
    analyzableFiles 300000 [file260k] = [file260k] :=
  analysis_eligibility_amended.2.2.2.1 300000 (by decide)

/-- C3 counterexample: the AI-fallback tier returns ZERO folders when the
text-generation response parses to JSON with an empty `folders` list — only
a `JSONDecodeError` (or a thrown exception) reaches the hard-coded default. -/
theorem planner_ai_tier_empty_cex :
    (generate_ai_fallback_structure (some []) false "readme").folders = [] :=
  rfl

/-- C3 (amended): the intelligent tier always returns a non-empty folder
list containing an architecture folder and a development folder, and the
hard-coded default tier always returns exactly the
architecture/components/development folders; the AI tier is non-empty when
the response fails to parse (it falls back to the default), but a
successfully parsed response with an empty folder list yields an empty
structure. -/
theorem planner_tiers_amended :
    (∀ (comp : ComponentAnalysis) (pats : FilePatterns) (tech : TechStack),
        generate_intelligent_folders comp pats tech ≠ [] ∧
        (∃ f ∈ generate_intelligent_folders comp pats tech,
          f.name = "architecture") ∧
        (∃ f ∈ generate_intelligent_folders comp pats tech,
          f.name = "development")) ∧
    (∀ (hasApis : Bool) (readme : String),
        (create_default_structure hasApis readme).folders.map
          DocumentationFolder.name =
          ["architecture", "components", "development"]) ∧
    (∀ (hasApis : Bool) (readme : String),
        generate_ai_fallback_structure none hasApis readme =
          create_default_structure hasApis readme) := by
  refine ⟨?_, fun _ _ => rfl, fun _ _ => rfl⟩
  intro comp pats tech
  refine ⟨?_, ?_, ?_⟩
  · unfold generate_intelligent_folders
    split_ifs <;> simp
  · unfold generate_intelligent_folders
    split_ifs <;> simp
  · unfold generate_intelligent_folders
    split_ifs <;>
      exact ⟨{ name := "development", title := "Development Guide",
               description := "Development setup, workflows, and guidelines",
               sections := generate_development_sections pats }, by simp, rfl⟩

theorem pyRfind_lt_length (l : List Char) (c : Char) :
    pyRfind l c < (l.length : Int) := by
  induction l with
  | nil => simp [pyRfind]
  | cons x xs ih =>
    simp only [pyRfind, List.length_cons]
    by_cases h : pyRfind xs c == -1
    · by_cases hx : x == c
      all_goals simp [h, hx]
      all_goals omega
    · simp [h]; omega

theorem pySlice_append_drop (memo : List Char) (a b : Nat) (h : a ≤ b) :
    pySlice memo a b ++ memo.drop b = memo.drop a := by
  unfold pySlice
  rw [show memo.drop b = ((memo.drop a).drop (b - a)) by
        rw [List.drop_drop]; congr 1; omega]
  exact List.take_append_drop _ _

theorem pySlice_eq_drop (memo : List Char) (a b : Nat)
    (h : memo.length ≤ b) : pySlice memo a b = memo.drop a := by
  unfold pySlice
  apply List.take_of_length_le
  rw [List.length_drop]
  omega

theorem drop_pySlice (memo : List Char) (a b k : Nat) :
    (pySlice memo a b).drop k = pySlice memo (a + k) b := by
  unfold pySlice
  rw [List.drop_take, List.drop_drop]
  congr 1
  omega

theorem length_pySlice_le (memo : List Char) (a b : Nat) :
    (pySlice memo a b).length ≤ b - a := by
  unfold pySlice
  rw [List.length_take]
  omega

/-- The window's chunk is always the slice of the text up to the window's
final cut point. -/
theorem splitWindowAt_fst (memo : List Char) (cs start : Nat) :
    (splitWindowAt memo cs start).1 =
      pySlice memo start (splitWindowAt memo cs start).2 := by
  unfold splitWindowAt
  dsimp only
  split_ifs <;> rfl

/-- With `2 * overlap ≤ chunk_size` every window's cut point exceeds
`start + overlap`: each iteration advances `start` by at least one (this is
exactly the regime in which the Python `while` loop terminates and never
produces a negative `start`; the code's defaults 1000/200 satisfy it). -/
theorem splitWindowAt_lb (memo : List Char) (cs ov start : Nat)
    (hcs : 0 < cs) (hov : 2 * ov ≤ cs) :
    start + ov + 1 ≤ (splitWindowAt memo cs start).2 := by
  unfold splitWindowAt
  dsimp only
  split_ifs with h1 h2
  · omega
  · omega
  · omega

/-- No window's cut point passes `start + chunk_size`. -/
theorem splitWindowAt_ub (memo : List Char) (cs start : Nat) :
    (splitWindowAt memo cs start).2 ≤ start + cs := by
  unfold splitWindowAt
  dsimp only
  split_ifs with h1 h2
  · have hb1 := pyRfind_lt_length (pySlice memo start (start + cs)) '.'
    have hb2 := pyRfind_lt_length (pySlice memo start (start + cs)) '\n'
    have hlen := length_pySlice_le memo start (start + cs)
    simp only [ge_iff_le, max_lt_iff] at *
    omega
  · omega
  · omega

/-- Removing the overlap from every window of the loop's tail and
concatenating yields the text from `start + overlap` on (telescoping sum of
the windows). -/
theorem splitMemoLoop_dropped (memo : List Char) (cs ov : Nat)
    (hcs : 0 < cs) (hov : 2 * ov ≤ cs) :
    ∀ (fuel start : Nat), start < memo.length → memo.length - start ≤ fuel →
      ((splitMemoLoop memo cs ov fuel start).map (fun x => x.drop ov)).flatten
        = memo.drop (start + ov) := by
  intro fuel
  induction fuel with
  | zero => intro start h1 h2; omega
  | succ fuel ih =>
    intro start h1 h2
    simp only [splitMemoLoop]
    rw [if_pos h1]
    have hfst := splitWindowAt_fst memo cs start
    have hlb := splitWindowAt_lb memo cs ov start hcs hov
    set ce := splitWindowAt memo cs start with hce
    by_cases hterm : memo.length ≤ ce.2 - ov
    · rw [if_pos hterm]
      simp only [List.map_cons, List.map_nil, List.flatten_cons,
        List.flatten_nil, List.append_nil]
      rw [hfst, drop_pySlice]
      exact pySlice_eq_drop memo (start + ov) ce.2 (by omega)
    · rw [if_neg hterm]
      push_neg at hterm
      simp only [List.map_cons, List.flatten_cons]
      rw [ih (ce.2 - ov) hterm (by omega)]
      rw [hfst, drop_pySlice]
      rw [show ce.2 - ov + ov = ce.2 by omega]
      exact pySlice_append_drop memo (start + ov) ce.2 (by omega)

/-- Keeping the first window whole and removing the overlap from each
successor reconstructs the text from `start` on. -/
theorem splitMemoLoop_reconstruct (memo : List Char) (cs ov : Nat)
    (hcs : 0 < cs) (hov : 2 * ov ≤ cs) :
    ∀ (fuel start : Nat), start < memo.length → memo.length - start ≤ fuel →
      reconstructChunks ov (splitMemoLoop memo cs ov fuel start) =
        memo.drop start := by
  intro fuel start h1 h2
  cases fuel with
  | zero => omega
  | succ fuel =>
    simp only [splitMemoLoop]
    rw [if_pos h1]
    have hfst := splitWindowAt_fst memo cs start
    have hlb := splitWindowAt_lb memo cs ov start hcs hov
    set ce := splitWindowAt memo cs start with hce
    by_cases hterm : memo.length ≤ ce.2 - ov
    · rw [if_pos hterm]
      simp only [reconstructChunks, List.map_nil, List.flatten_nil,
        List.append_nil]
      rw [hfst]
      exact pySlice_eq_drop memo start ce.2 (by omega)
    · rw [if_neg hterm]
      push_neg at hterm
      simp only [reconstructChunks]
      rw [splitMemoLoop_dropped memo cs ov hcs hov fuel (ce.2 - ov) hterm
        (by omega)]
      rw [show ce.2 - ov + ov = ce.2 by omega, hfst]
      exact pySlice_append_drop memo start ce.2 (by omega)

/-- C4 counterexample: on `"abcdef  ghXYZWVUTSRQ"` with chunk size 10 and
overlap 4, reassembling the RETURNED chunks (which are whitespace-stripped)
with the overlap removed from each successor loses the non-whitespace
characters `X` and `Y`: the result is not the original up to whitespace
removed at cut points, because stripping shifts the overlap boundary. -/
theorem chunk_roundtrip_cex :
    (reconstructChunks 4
        (split_memo "abcdef  ghXYZWVUTSRQ".data 10 4)).filter
        (fun c => !pyIsSpace c) ≠
      ("abcdef  ghXYZWVUTSRQ".data).filter (fun c => !pyIsSpace c) := by
  decide

/-- C4 (amended): concatenating the windows the engine cuts — taken BEFORE
each is whitespace-stripped and before whitespace-only windows are dropped —
with the configured overlap removed from each successor window reconstructs
the original input exactly (the returned chunks are those windows stripped,
whitespace-only ones removed). -/
theorem chunk_roundtrip_amended (memo : List Char) (cs ov : Nat)
    (hcs : 0 < cs) (hov : 2 * ov ≤ cs) :
    reconstructChunks ov (splitMemoWindows memo cs ov) = memo := by
  unfold splitMemoWindows
  split_ifs with h
  · simp [reconstructChunks]
  · push_neg at h
    rw [splitMemoLoop_reconstruct memo cs ov hcs hov memo.length 0 (by omega)
      (by omega)]
    exact List.drop_zero memo

/-- Witness for C4 at the counterexample input: the raw windows round-trip
exactly. -/
theorem chunk_roundtrip_amended_witness :
    reconstructChunks 4 (splitMemoWindows "abcdef  ghXYZWVUTSRQ".data 10 4) =
      "abcdef  ghXYZWVUTSRQ".data :=
  chunk_roundtrip_amended "abcdef  ghXYZWVUTSRQ".data 10 4 (by decide)
    (by decide)

/-- Every chunk the loop appends has at most `chunk_size` characters. -/
theorem splitMemoLoop_length_le (memo : List Char) (cs ov : Nat) :
    ∀ (fuel start : Nat), ∀ c ∈ splitMemoLoop memo cs ov fuel start,
      c.length ≤ cs := by
  intro fuel
  induction fuel with
  | zero => intro start c hc; simp [splitMemoLoop] at hc
  | succ fuel ih =>
    intro start c hc
    simp only [splitMemoLoop] at hc
    by_cases h1 : start < memo.length
    · rw [if_pos h1] at hc
      have hfst := splitWindowAt_fst memo cs start
      have hub := splitWindowAt_ub memo cs start
      set ce := splitWindowAt memo cs start with hce
      have hlen : ce.1.length ≤ cs := by
        rw [hfst]
        have := length_pySlice_le memo start ce.2
        omega
      by_cases hterm : memo.length ≤ ce.2 - ov
      · rw [if_pos hterm] at hc
        simp at hc
        subst hc
        exact hlen
      · rw [if_neg hterm] at hc
        rcases List.mem_cons.mp hc with h | h
        · subst h; exact hlen
        · exact ih _ c h
    · rw [if_neg h1] at hc
      simp at hc

theorem pyStrip_length_le (l : List Char) : (pyStrip l).length ≤ l.length := by
  unfold pyStrip
  have h1 := (List.dropWhile_sublist (l := l) pyIsSpace).length_le
  have h2 := (List.dropWhile_sublist
    (l := (l.dropWhile pyIsSpace).reverse) pyIsSpace).length_le
  simp only [List.length_reverse] at *
  omega

/-- A string whose strip is non-empty contains a non-whitespace character. -/
theorem exists_nonspace_of_pyStrip_ne_nil (l : List Char)
    (h : pyStrip l ≠ []) : ∃ c ∈ l, pyIsSpace c = false := by
  by_contra hall
  push_neg at hall
  have hws : ∀ c ∈ l, pyIsSpace c = true := by
    intro c hc
    have := hall c hc
    revert this
    cases pyIsSpace c <;> simp
  have h1 : l.dropWhile pyIsSpace = [] := by
    rw [List.dropWhile_eq_nil_iff]
    exact fun x hx => hws x hx
  apply h
  unfold pyStrip
  rw [h1]
  rfl

/-- C10 counterexample: with the default chunk size 1000 and overlap 200
(positive chunk size, smaller overlap), the empty input is returned verbatim
as one chunk that contains no non-whitespace character — the short-input
branch bypasses the whitespace-only filter. -/
theorem chunk_nonempty_cex :
    0 < 1000 ∧ 200 < 1000 ∧
    ∃ chunk ∈ split_memo [] 1000 200, ¬∃ c ∈ chunk, pyIsSpace c = false := by
  decide

/-- C10 (amended): every returned chunk has length at most the chunk size;
and for inputs LONGER than the chunk size every returned chunk contains a
non-whitespace character (an input of length at most the chunk size is
returned verbatim as the single chunk and may be empty or whitespace-only).
The hypothesis `2 * overlap ≤ chunk_size` is the regime in which the
source's loop terminates; the defaults satisfy it. -/
theorem chunk_bounds_amended (memo : List Char) (cs ov : Nat)
    (_hcs : 0 < cs) (_hov : 2 * ov ≤ cs) :
    (∀ chunk ∈ split_memo memo cs ov, chunk.length ≤ cs) ∧
    (cs < memo.length →
      ∀ chunk ∈ split_memo memo cs ov, ∃ c ∈ chunk, pyIsSpace c = false) := by
  constructor
  · intro chunk hm
    unfold split_memo at hm
    split_ifs at hm with h
    · simp only [List.mem_singleton] at hm
      subst hm
      exact h
    · have hm' := (List.mem_filter.mp hm).1
      obtain ⟨r, hr, hrc⟩ := List.mem_map.mp hm'
      subst hrc
      calc (pyStrip r).length ≤ r.length := pyStrip_length_le r
        _ ≤ cs := splitMemoLoop_length_le memo cs ov _ _ r hr
  · intro hlong chunk hm
    unfold split_memo at hm
    rw [if_neg (by omega)] at hm
    have h2 := (List.mem_filter.mp hm).2
    apply exists_nonspace_of_pyStrip_ne_nil
    intro hnil
    rw [hnil] at h2
    simp at h2

/-- Witness for C10 at a concrete long input. -/
theorem chunk_bounds_amended_witness :
    (∀ chunk ∈ split_memo "hello, worldly text".data 10 4,
      chunk.length ≤ 10) ∧
    (10 < ("hello, worldly text".data).length →
      ∀ chunk ∈ split_memo "hello, worldly text".data 10 4,
        ∃ c ∈ chunk, pyIsSpace c = false) :=
  chunk_bounds_amended "hello, worldly text".data 10 4 (by decide) (by decide)

/-- C8 (code bug, evaluation): on `"abcdefghijklmnop.rst"` with chunk size 10
and overlap 2, the second window is `memo[8:18] = "ijklmnop.r"`; its last
sentence terminator sits at window-relative index 8, past the midpoint 5, so
per the spec the window must shrink to end at that `'.'` (yielding
`"ijklmnop."`).  The code instead compares the relative index 8 with the
absolute threshold `start + chunk_size // 2 = 13` and keeps the full window
`"ijklmnop.r"` — the same `break_point` value is used relative in the slice
but absolute in the comparison. -/
theorem split_memo_midpoint_eval :
    split_memo "abcdefghijklmnop.rst".data 10 2 =
      ["abcdefghij".data, "ijklmnop.r".data, ".rst".data] := by
  decide

/-- `_write_documentation_files` changes no tracked state field (filesystem
output only). -/
theorem write_documentation_files_id (s : IndexState) :
    write_documentation_files s = s := by
  unfold write_documentation_files
  split <;> rfl

/-- Field effects of one pipeline cycle over an existing repository with at
least one analyzable file: the index advances, the per-repository fields
are cleared, the repository's entry is appended, and no error is set. -/
theorem pipelineCycle_ok (env : AgentEnv) (cfg : AgentConfig) (s : IndexState)
    (q : String)
    (hidx : s.current_repo_index < s.repo_paths.length)
    (hq : s.repo_paths.getD s.current_repo_index "" = q)
    (hex : env.pathExists q = true)
    (haf : analyzableFiles cfg.max_file_size (env.scanFiles q) ≠ [])
    (herr : s.error = none) :
    (pipelineCycle env cfg s).error = none ∧
    (pipelineCycle env cfg s).current_repo_index = s.current_repo_index + 1 ∧
    (pipelineCycle env cfg s).repo_paths = s.repo_paths ∧
    (pipelineCycle env cfg s).repo_files = [] ∧
    (pipelineCycle env cfg s).current_repo_path = "" ∧
    (pipelineCycle env cfg s).all_docs.map DocEntry.repo_path =
      s.all_docs.map DocEntry.repo_path ++ [q] ∧
    (pipelineCycle env cfg s).success = s.success ∧
    (pipelineCycle env cfg s).general_memo = s.general_memo ∧
    (pipelineCycle env cfg s).output_dir = s.output_dir := by
  have h' : ¬(s.repo_paths.length ≤ s.current_repo_index) := by omega
  simp only [List.getD_eq_getElem?_getD] at hq
  simp [pipelineCycle, scan_repository, analyze_with_ast, generate_structure,
    generate_folder_docs, write_documentation_files_id, store_documentation,
    next_repo, h', hq, hex, haf, herr]

/-- Field effects of a cycle whose repository path does not exist: the scan
error is set, then overwritten by the AST node (zero analyzable files make
the worker-pool construction fail with
`ValueError("max_workers must be greater than 0")`), and the store node
still appends a placeholder entry under the cleared path `""`. -/
theorem pipelineCycle_scanfail (env : AgentEnv) (cfg : AgentConfig)
    (s : IndexState) (q : String)
    (hidx : s.current_repo_index < s.repo_paths.length)
    (hq : s.repo_paths.getD s.current_repo_index "" = q)
    (hex : env.pathExists q = false)
    (hrf : s.repo_files = [])
    (hcrp : s.current_repo_path = "") :
    (pipelineCycle env cfg s).error =
      some "Failed to perform AST analysis: max_workers must be greater than 0" ∧
    (pipelineCycle env cfg s).current_repo_index = s.current_repo_index + 1 ∧
    (pipelineCycle env cfg s).repo_paths = s.repo_paths ∧
    (pipelineCycle env cfg s).all_docs.map DocEntry.repo_path =
      s.all_docs.map DocEntry.repo_path ++ [""] ∧
    (pipelineCycle env cfg s).success = s.success ∧
    (pipelineCycle env cfg s).general_memo = s.general_memo ∧
    (pipelineCycle env cfg s).output_dir = s.output_dir := by
  have h' : ¬(s.repo_paths.length ≤ s.current_repo_index) := by omega
  simp only [List.getD_eq_getElem?_getD] at hq
  simp [pipelineCycle, scan_repository, analyze_with_ast, analyzableFiles,
    generate_structure, generate_folder_docs, write_documentation_files_id,
    store_documentation, next_repo, h', hq, hex, hrf, hcrp]

/-- C7 counterexample: invoked with zero repository paths, the orchestrator
does NOT return a successful "nothing indexed" result — the run ends in the
error handler with `success = False`. -/
theorem empty_batch_cex :
    (index_repositories envTrivial {} [] none).success = false ∧
    (index_repositories envTrivial {} [] none).error =
      some "Failed to perform AST analysis: max_workers must be greater than 0" := by
  constructor
  · rfl
  · rfl

/-- C7 (amended): with an empty path list the graph still enters `scan_repo`
first, which sets the error `"Index out of bounds"`; the unconditional chain
then runs anyway — the AST node overwrites that error (zero analyzable files
make the worker-pool construction fail) and the store node appends one
placeholder entry for path `""` — and `_should_continue` routes to the error
handler: the run ends with `success = False` and never reaches the
summarization node (`general_memo` stays empty, although
`_generate_general_memo` does contain a "nothing indexed" branch). -/
theorem empty_batch_amended (env : AgentEnv) (cfg : AgentConfig)
    (od : Option String) :
    (index_repositories env cfg [] od).success = false ∧
    (index_repositories env cfg [] od).error =
      some "Failed to perform AST analysis: max_workers must be greater than 0" ∧
    (index_repositories env cfg [] od).general_memo = "" ∧
    (index_repositories env cfg [] od).individual_memos.map
      DocEntry.repo_path = [""] := by
  simp [index_repositories, runFrom, pipelineCycle, init_node, scan_repository,
    analyze_with_ast, analyzableFiles, generate_structure, generate_folder_docs,
    write_documentation_files_id, store_documentation, next_repo,
    should_continue, generate_general_memo, finalize_node, handle_error]

/-- C2 counterexample: a batch of three paths whose second does not exist
yields a summary with TWO entries (the first repository's and a placeholder
for the failed one), not three, the run reports failure, and the recorded
error is not even the scan error (the AST node overwrote it). -/
theorem scan_failure_batch_cex :
    (index_repositories envBatch {} ["repoA", "repoB", "repoC"]
      none).individual_memos.length = 2 ∧
    (index_repositories envBatch {} ["repoA", "repoB", "repoC"]
      none).success = false ∧
    (index_repositories envBatch {} ["repoA", "repoB", "repoC"]
      none).error =
      some "Failed to perform AST analysis: max_workers must be greater than 0" := by
  refine ⟨by decide, by decide, by decide⟩

/-- C2 (amended): a scan failure on one repository sets the state error and
the batch ABORTS rather than skipping it: the failed repository's cycle
still runs its downstream nodes (appending a placeholder entry with empty
path and overwriting the scan error with the AST scheduler error), and at
the next conditional edge the orchestrator routes to the error handler —
repositories after the failing one are never processed.  For three paths
with the second missing, the result is `success = False`, the overwritten
error, and the two entries `[p1, ""]`. -/
theorem scan_failure_aborts_batch (env : AgentEnv) (cfg : AgentConfig)
    (p1 p2 p3 : String) (od : Option String)
    (h1 : env.pathExists p1 = true)
    (h2 : env.pathExists p2 = false)
    (h3 : analyzableFiles cfg.max_file_size (env.scanFiles p1) ≠ []) :
    (index_repositories env cfg [p1, p2, p3] od).success = false ∧
    (index_repositories env cfg [p1, p2, p3] od).error =
      some "Failed to perform AST analysis: max_workers must be greater than 0" ∧
    (index_repositories env cfg [p1, p2, p3] od).individual_memos.map
      DocEntry.repo_path = [p1, ""] := by
  unfold index_repositories
  dsimp only
  set s0 : IndexState :=
    { repo_paths := [p1, p2, p3], current_repo_index := 0,
      current_repo_path := "", repo_files := [], ast_analysis := [],
      generated_docs := { readme := none, folders := [] },
      documentation_structure := none, current_folder_index := 0,
      current_section_index := 0, repo_metadata := [], all_docs := [],
      general_memo := "", success := false, error := none,
      output_dir := od } with hs0
  have hinit : init_node s0 = s0 := by simp [init_node, hs0]
  have hc1 := pipelineCycle_ok env cfg s0 p1 (by simp [hs0]) (by simp [hs0])
    h1 h3 (by simp [hs0])
  set s1 := pipelineCycle env cfg s0 with hs1
  obtain ⟨e1, i1, rp1, rf1, cp1, ad1, su1, gm1, od1⟩ := hc1
  have hc2 := pipelineCycle_scanfail env cfg s1 p2
    (by rw [i1, rp1]; simp [hs0]) (by rw [i1, rp1]; simp [hs0]) h2 rf1 cp1
  set s2 := pipelineCycle env cfg s1 with hs2
  obtain ⟨e2, i2, rp2, ad2, su2, gm2, od2⟩ := hc2
  have hrun : runFrom env cfg ([p1, p2, p3].length + 1) (init_node s0) =
      handle_error s2 := by
    rw [hinit]
    show runFrom env cfg 4 s0 = handle_error s2
    rw [runFrom]
    have hsc1 : should_continue s1 = .continueRepos := by
      unfold should_continue
      rw [e1, i1, rp1]
      simp [hs0]
    rw [← hs1, hsc1]
    show runFrom env cfg 3 s1 = handle_error s2
    rw [runFrom]
    have hsc2 : should_continue s2 = .errorRoute := by
      unfold should_continue
      rw [e2]
      rfl
    rw [← hs2, hsc2]
  rw [hrun]
  refine ⟨?_, ?_, ?_⟩
  · simp [handle_error]
  · simp [handle_error, e2]
  · simp only [handle_error]
    rw [ad2, ad1]
    simp [hs0]

/-- Witness for C2 at the concrete three-repository environment. -/
theorem scan_failure_aborts_batch_witness :
    (index_repositories envBatch {} ["repoA", "repoB", "repoC"]
      none).success = false ∧
    (index_repositories envBatch {} ["repoA", "repoB", "repoC"]
      none).error =
      some "Failed to perform AST analysis: max_workers must be greater than 0" ∧
    (index_repositories envBatch {} ["repoA", "repoB", "repoC"]
      none).individual_memos.map DocEntry.repo_path = ["repoA", ""] :=
  scan_failure_aborts_batch envBatch {} "repoA" "repoB" "repoC" none
    (by decide) (by decide) (by decide)
